import Mathlib

/-!
Shallow embedding of the two source files of this repository:

  src/keras_cv/layers/preprocessing/random_resized_crop.py
  src/keras_cv/layers/regularization/squeeze_excite.py

Real-valued tensor scalars are modelled by the exact reals; the
configuration-time logic of the constructors, which never touches a square
root, is modelled over the rationals so that it evaluates. A stateful random
source is a stream of raw uniform draws in the unit interval together with a
position; a uniform draw from an interval rescales the next raw draw.
-/

namespace KerasCV

/-- A stateful random source: a stream of raw scalar draws and the position of
the next one. Models the seeded random generator the layer owns. -/
structure RNG where
  stream : ℕ → ℝ
  pos : ℕ

/-- Consume one raw draw and advance the state by one. -/
def RNG.draw (g : RNG) : ℝ × RNG :=
  (g.stream g.pos, ⟨g.stream, g.pos + 1⟩)

/-- Modelled from the spec: the random_uniform primitive of the random
generator (the generator class is not under src/). A draw uniform on the
closed interval from minval to maxval is minval plus the interval length
times the next raw unit draw; it advances the state exactly once. -/
noncomputable def uniformDraw (minval maxval : ℝ) (g : RNG) : ℝ × RNG :=
  let d := g.draw
  (minval + (maxval - minval) * d.1, d.2)

/-- Modelled from the spec: keras_cv.core.FactorSampler (its code is not
under src/). Per the spec data model, a factor is a distribution
specification over a closed interval producing one scalar per draw,
polymorphic over uniform-in-range, constant, and user-supplied custom
variants. -/
inductive FactorSampler (α : Type) where
  | uniform (lo hi : α)
  | constant (c : α)
  | custom (f : α → α)

/-- Modelled from the spec: drawing from a FactorSampler. Per the spec, the
rng state is advanced exactly once per scalar draw, for every variant. -/
noncomputable def FactorSampler.draw : FactorSampler ℝ → RNG → ℝ × RNG
  | .uniform lo hi, g => uniformDraw lo hi g
  | .constant c, g => (c, g.draw.2)
  | .custom f, g => (f g.draw.1, g.draw.2)

/-- tf.clip_by_value on a scalar: clamp x into the closed interval from lo
to hi. -/
noncomputable def clip_by_value (x lo hi : ℝ) : ℝ :=
  min (max x lo) hi

/-- The rectangle the sampler returns, in normalized coordinates, in the
order the source lists them: y1, x1, y2, x2. -/
structure Rect where
  y1 : ℝ
  x1 : ℝ
  y2 : ℝ
  x2 : ℝ

/-- Tensor dtypes the embedding distinguishes. -/
inductive DType where
  | float32
  | float16
  | bfloat16

/-- An image: spatial dimensions, channel count, dtype and pixel data. -/
structure Image where
  height : ℕ
  width : ℕ
  channels : ℕ
  dtype : DType
  pixel : ℕ → ℕ → ℕ → ℝ

noncomputable instance : Inhabited Image :=
  ⟨⟨0, 0, 0, DType.float32, fun _ _ _ => 0⟩⟩

/-- tf.cast on an image: only the dtype changes. -/
def Image.cast (img : Image) (dt : DType) : Image :=
  { img with dtype := dt }

/-- The RandomResizedCrop layer state the sampling and resizing paths read:
the target size, the two parsed factor samplers, and the compute dtype of
the layer. -/
structure RRCLayer where
  target_size : ℕ × ℕ
  area_factor : FactorSampler ℝ
  aspect_ratio_factor : FactorSampler ℝ
  compute_dtype : DType

/-- RandomResizedCrop.get_random_transformation, from the source: draw an
area factor and an aspect ratio, clip the derived height and width into the
unit interval, draw the two offsets uniformly from the swap-tolerant
interval, and return the rectangle together with the advanced rng state. -/
noncomputable def RRCLayer.get_random_transformation (self : RRCLayer) (g : RNG) :
    Rect × RNG :=
  let d1 := self.area_factor.draw g
  let area_factor := d1.1
  let d2 := self.aspect_ratio_factor.draw d1.2
  let aspect_ratio := d2.1
  let new_height := clip_by_value (Real.sqrt (area_factor / aspect_ratio)) 0 1
  let new_width := clip_by_value (Real.sqrt (area_factor * aspect_ratio)) 0 1
  let d3 := uniformDraw (min 0 (1 - new_height)) (max 0 (1 - new_height)) d2.2
  let height_offset := d3.1
  let d4 := uniformDraw (min 0 (1 - new_width)) (max 0 (1 - new_width)) d3.2
  let width_offset := d4.1
  (⟨height_offset, width_offset, height_offset + new_height, width_offset + new_width⟩,
    d4.2)

/-- The area factor value the call to get_random_transformation draws. -/
noncomputable def sampledArea (self : RRCLayer) (g : RNG) : ℝ :=
  (self.area_factor.draw g).1

/-- The aspect ratio value the call to get_random_transformation draws,
from the state left by the area draw. -/
noncomputable def sampledAspect (self : RRCLayer) (g : RNG) : ℝ :=
  (self.aspect_ratio_factor.draw (self.area_factor.draw g).2).1

/-- The rng state after the two factor draws of a call. -/
noncomputable def stateAfterFactors (self : RRCLayer) (g : RNG) : RNG :=
  (self.aspect_ratio_factor.draw (self.area_factor.draw g).2).2

/-- The clipped candidate crop height computed in a call, line for line the
new_height of the source. -/
noncomputable def sampledHeight (self : RRCLayer) (g : RNG) : ℝ :=
  clip_by_value (Real.sqrt (sampledArea self g / sampledAspect self g)) 0 1

/-- The clipped candidate crop width computed in a call, line for line the
new_width of the source. -/
noncomputable def sampledWidth (self : RRCLayer) (g : RNG) : ℝ :=
  clip_by_value (Real.sqrt (sampledArea self g * sampledAspect self g)) 0 1

/-- The algorithm of the spec, written from the words of the spec section
4.1, as a function of the two sampled factor values and the two raw unit
draws that feed the offset draws: h and w are the clipped square roots, the
offsets are drawn uniformly from the min-max bounded intervals, and the
rectangle is offsets then offsets plus extents. -/
noncomputable def specCropRectangle (area_factor aspect_ratio u_h u_w : ℝ) : Rect :=
  let h := min (max (Real.sqrt (area_factor / aspect_ratio)) 0) 1
  let w := min (max (Real.sqrt (area_factor * aspect_ratio)) 0) 1
  let height_offset :=
    min 0 (1 - h) + (max 0 (1 - h) - min 0 (1 - h)) * u_h
  let width_offset :=
    min 0 (1 - w) + (max 0 (1 - w) - min 0 (1 - w)) * u_w
  ⟨height_offset, width_offset, height_offset + h, width_offset + w⟩

/-- The sequence of rectangles across repeated calls to the sampler from a
starting rng state. -/
noncomputable def rectSequence (self : RRCLayer) (g : RNG) : ℕ → List Rect
  | 0 => []
  | n + 1 =>
    let d := self.get_random_transformation g
    d.1 :: rectSequence self d.2 n

/-- Bilinear sampling of one image at a fractional coordinate, the sampling
mode the crop-and-resize collaborator documents. -/
noncomputable def sampleBilinear (img : Image) (iy ix : ℝ) (c : ℕ) : ℝ :=
  let y0 : ℤ := ⌊iy⌋
  let x0 : ℤ := ⌊ix⌋
  let dy := iy - (y0 : ℝ)
  let dx := ix - (x0 : ℝ)
  let p : ℤ → ℤ → ℝ := fun yy xx => img.pixel yy.toNat xx.toNat c
  (1 - dy) * ((1 - dx) * p y0 x0 + dx * p y0 (x0 + 1)) +
    dy * ((1 - dx) * p (y0 + 1) x0 + dx * p (y0 + 1) (x0 + 1))

/-- Modelled from the spec: the external crop-and-resize primitive of
section 6 applied to one image and one normalized box (the exact numeric
sampling kernel is out of scope per the spec): the output has the requested
crop size, the channel count of the input and float32 dtype, and each
output pixel is sampled bilinearly at the fractional source coordinate the
box maps it to. -/
noncomputable def crop_and_resize_one (img : Image) (box : Rect) (crop_h crop_w : ℕ) :
    Image where
  height := crop_h
  width := crop_w
  channels := img.channels
  dtype := DType.float32
  pixel := fun y x c =>
    let iy := box.y1 * ((img.height : ℝ) - 1) +
      (y : ℝ) * (box.y2 - box.y1) * ((img.height : ℝ) - 1) / ((crop_h : ℝ) - 1)
    let ix := box.x1 * ((img.width : ℝ) - 1) +
      (x : ℝ) * (box.x2 - box.x1) * ((img.width : ℝ) - 1) / ((crop_w : ℝ) - 1)
    sampleBilinear img iy ix c

/-- Modelled from the spec: the batched external crop-and-resize primitive
of section 6: a set of boxes, an index mapping each box to a batch element,
and an output size; returns one output image per box. -/
noncomputable def crop_and_resize (images : List Image) (boxes : List Rect)
    (box_indices : List ℕ) (crop_h crop_w : ℕ) : List Image :=
  (boxes.zip box_indices).map fun bi =>
    crop_and_resize_one (images.getD bi.2 default) bi.1 crop_h crop_w

/-- RandomResizedCrop.augment_image, from the source: expand the image to a
batch of one, crop and resize with the transformation rectangle as the one
box mapped to batch index zero and the target size as output size, then
squeeze the batch axis away. -/
noncomputable def RRCLayer.augment_image (self : RRCLayer) (image : Image)
    (transformation : Rect) : Image :=
  let batch := [image]
  let boxes := [transformation]
  let augmented_image :=
    crop_and_resize batch boxes [0] self.target_size.1 self.target_size.2
  augmented_image.headD default

/-- A single image or a batch of images, the two shapes of input the call
path accepts. -/
inductive ImageInput where
  | single (image : Image)
  | batch (images : List Image)

/-- tf.cast over a single image or a batch. -/
def ImageInput.cast : ImageInput → DType → ImageInput
  | .single img, dt => .single (img.cast dt)
  | .batch imgs, dt => .batch (imgs.map (Image.cast · dt))

/-- Modelled from the spec: the smart-resize primitive of section 6 on one
image: an aspect-ratio preserving resize that center-crops the minimal
excess before scaling; the output has the target size and always float32
dtype. -/
noncomputable def smart_resize_one (img : Image) (h w : ℕ) : Image where
  height := h
  width := w
  channels := img.channels
  dtype := DType.float32
  pixel := fun y x c =>
    let crop_h : ℝ := min (img.height : ℝ) ((img.width : ℝ) * (h : ℝ) / (w : ℝ))
    let crop_w : ℝ := min (img.width : ℝ) ((img.height : ℝ) * (w : ℝ) / (h : ℝ))
    let off_y := ((img.height : ℝ) - crop_h) / 2
    let off_x := ((img.width : ℝ) - crop_w) / 2
    sampleBilinear img (off_y + (y : ℝ) * crop_h / (h : ℝ))
      (off_x + (x : ℝ) * crop_w / (w : ℝ)) c

/-- Modelled from the spec: the smart-resize primitive on a single image or
a batch, which it must handle uniformly. -/
noncomputable def smart_resize (x : ImageInput) (h w : ℕ) : ImageInput :=
  match x with
  | .single img => .single (smart_resize_one img h w)
  | .batch imgs => .batch (imgs.map (smart_resize_one · h w))

/-- RandomResizedCrop._resize, from the source: smart resize to the target
size, then cast back to the compute dtype of the layer because smart resize
always outputs float32. -/
noncomputable def RRCLayer._resize (self : RRCLayer) (image : ImageInput) : ImageInput :=
  (smart_resize image self.target_size.1 self.target_size.2).cast self.compute_dtype

/-- RandomResizedCrop.call, from the source; the training branch defers to
the call of the base augmentation layer, which is not under src/ and is
modelled from the spec: one rectangle is sampled per call and shared across
the whole batch (spec section 5), and augment_image is applied per element.
The result carries the output, the final rng state, and how many times the
rectangle sampler was invoked. -/
noncomputable def RRCLayer.call (self : RRCLayer) (inputs : ImageInput)
    (training : Bool) (g : RNG) : ImageInput × RNG × ℕ :=
  if training then
    let d := self.get_random_transformation g
    let out :=
      match inputs with
      | .single img => ImageInput.single (self.augment_image img d.1)
      | .batch imgs => ImageInput.batch (imgs.map fun img => self.augment_image img d.1)
    (out, d.2, 1)
  else
    (self._resize inputs, g, 0)

/-- Every image of the input has the given spatial size. -/
def ImageInput.spatialIs : ImageInput → ℕ → ℕ → Prop
  | .single img, h, w => img.height = h ∧ img.width = w
  | .batch imgs, h, w => ∀ img ∈ imgs, img.height = h ∧ img.width = w

/-- A Python value passed as a factor argument to the RandomResizedCrop
constructor: None, a bool, an int, a float, a tuple of floats, or a
FactorSampler instance. Float scalars are carried as rationals so the
constructor logic evaluates. -/
inductive PyFactor where
  | none
  | bool (b : Bool)
  | int (n : ℤ)
  | float (x : ℚ)
  | tuple (xs : List ℚ)
  | sampler (s : FactorSampler ℚ)

/-- Python truthiness of a factor argument: None, False, zero numbers and
the empty tuple are falsy; every other value here is truthy. -/
def PyFactor.truthy : PyFactor → Bool
  | .none => false
  | .bool b => b
  | .int n => n != 0
  | .float x => x != 0
  | .tuple xs => !xs.isEmpty
  | .sampler _ => true

/-- The Python comparison of a factor argument with the float literal 0.0:
True exactly for the numbers equal to zero, False included; a tuple, None
or a sampler instance never equals 0.0. -/
def PyFactor.eqPyZero : PyFactor → Bool
  | .bool b => !b
  | .int n => n == 0
  | .float x => x == 0
  | _ => false

/-- The errors the RandomResizedCrop constructor can raise: the ValueError
of the type dispatch, whose message names the offending parameter, and the
UnboundLocalError Python raises when a local is read before assignment. -/
inductive InitError where
  | valueError (param : String)
  | unboundLocal (name : String)

/-- Modelled from the spec: preprocessing.parse_factor (its code is not
under src/). Per the configuration surface of the spec a factor is a
two-float range, a single float, or a FactorSampler: a range becomes a
uniform sampler over it when its bounds are ordered, a single number a
constant sampler, a FactorSampler is used as is, and any other value is a
malformed factor specification raising a configuration error that names
the parameter. -/
def parse_factor (v : PyFactor) (param : String) :
    Except InitError (FactorSampler ℚ) :=
  match v with
  | .float x => .ok (.constant x)
  | .int n => .ok (.constant (n : ℚ))
  | .bool b => .ok (.constant (if b then 1 else 0))
  | .tuple [lo, hi] =>
    if lo ≤ hi then .ok (.uniform lo hi) else .error (.valueError param)
  | .sampler s => .ok s
  | _ => .error (.valueError param)

/-- Minimum of a list of rationals, as the Python min of a nonempty tuple. -/
def listMin (xs : List ℚ) : ℚ := xs.foldl min (xs.headD 0)

/-- Maximum of a list of rationals, as the Python max of a nonempty tuple. -/
def listMax (xs : List ℚ) : ℚ := xs.foldl max (xs.headD 0)

/-- The state the RandomResizedCrop constructor leaves behind: the stored
target size, the two parsed factor samplers, and whether the degenerate
no-op warning was emitted. -/
structure RRCInit where
  target_size : ℕ × ℕ
  area_factor : FactorSampler ℚ
  aspect_ratio_factor : FactorSampler ℚ
  warned : Bool

/-- RandomResizedCrop.__init__, from the source, in source order: replace a
falsy aspect_ratio_factor with the default range, dispatch on its type,
raising the ValueError naming aspect_ratio_factor for anything that is
neither a tuple nor a FactorSampler; only the tuple branch assigns the
local min and max aspect ratio, so the following parse_factor call raises
UnboundLocalError in the FactorSampler branch when it evaluates them; parse
the aspect ratio factor, then the area factor; finally emit the no-op
warning when the original area_factor argument and the possibly replaced
aspect_ratio_factor both compare equal to 0.0. -/
def RandomResizedCrop_init (target_size : ℕ × ℕ)
    (area_factor aspect_ratio_factor : PyFactor) : Except InitError RRCInit := do
  let arf := if aspect_ratio_factor.truthy then aspect_ratio_factor
    else PyFactor.tuple [3 / 4, 4 / 3]
  let minmax : Option (ℚ × ℚ) ←
    match arf with
    | .tuple xs => Except.ok (some (listMin xs, listMax xs))
    | .sampler _ => Except.ok Option.none
    | _ => Except.error (InitError.valueError "aspect_ratio_factor")
  let _bounds : ℚ × ℚ ←
    match minmax with
    | some mm => Except.ok mm
    | Option.none => Except.error (InitError.unboundLocal "min_aspect_ratio")
  let aspect ← parse_factor arf "aspect_ratio_factor"
  let area ← parse_factor area_factor "area_factor"
  let warned := area_factor.eqPyZero && arf.eqPyZero
  Except.ok ⟨target_size, area, aspect, warned⟩

/-- A Python number passed as the filters argument: an int or a float. -/
inductive PyNum where
  | int (n : ℤ)
  | float (x : ℚ)

/-- The numeric value of a Python number. -/
def PyNum.toRat : PyNum → ℚ
  | .int n => n
  | .float _x => _x

/-- Whether a Python number is an instance of int. -/
def PyNum.isInt : PyNum → Bool
  | .int _ => true
  | .float _ => false

/-- The Python int() conversion on a number: truncation toward zero. -/
def pyTrunc (q : ℚ) : ℤ :=
  if q < 0 then ⌈q⌉ else ⌊q⌋

/-- The state the SqueezeAndExciteBlock2D constructor leaves behind: the
stored filter count, ratio, and derived bottleneck filter count. -/
structure SEInit where
  filters : ℚ
  ratio : ℚ
  bottleneck_filters : ℤ

/-- SqueezeAndExciteBlock2D.__init__, from the source: raise when the ratio
is not strictly between 0 and 1, then raise when filters is not positive or
not an int, else store the fields and the truncated bottleneck filter
count. -/
def SqueezeAndExciteBlock2D_init (filters : PyNum) (ratio : ℚ) :
    Except String SEInit :=
  if ratio ≤ 0 ∨ 1 ≤ ratio then
    Except.error "ratio should be a float between 0 and 1"
  else if filters.toRat ≤ 0 ∨ filters.isInt = false then
    Except.error "filters should be a positive integer"
  else
    Except.ok ⟨filters.toRat, ratio, pyTrunc (filters.toRat * ratio)⟩

/-- A concrete layer with the default factor ranges, for evaluating the
universally quantified theorems at one input. -/
noncomputable def witnessLayer : RRCLayer :=
  ⟨(224, 224), FactorSampler.uniform (2 / 25) 1,
    FactorSampler.uniform (3 / 4) (4 / 3), DType.float32⟩

/-- A concrete layer whose two factor samplers are pinned to the constant
one. -/
noncomputable def unitLayer : RRCLayer :=
  ⟨(224, 224), FactorSampler.constant 1, FactorSampler.constant 1, DType.float32⟩

/-- A concrete rng state: the all-zero stream at position zero. -/
noncomputable def zeroRNG : RNG := ⟨fun _ => 0, 0⟩

theorem clip01_nonneg (x : ℝ) : 0 ≤ clip_by_value x 0 1 :=
  le_min (le_max_right x 0) zero_le_one

theorem clip01_le_one (x : ℝ) : clip_by_value x 0 1 ≤ 1 :=
  min_le_right _ _

theorem grt_state (self : RRCLayer) (g : RNG) :
    (self.get_random_transformation g).2 = ⟨g.stream, g.pos + 4⟩ := by
  obtain ⟨ts, af, rf, dt⟩ := self
  cases af <;> cases rf <;> rfl

/-- C1: for every call to get_random_transformation, the returned rectangle
is exactly the rectangle of the algorithm of the spec applied to the two
sampled factor values and the two raw unit draws that feed the offset
draws: h and w are the clipped square roots of the quotient and product,
the offsets are drawn uniformly from the interval between min 0 (1 - h) and
max 0 (1 - h) and likewise for w, and the result is the offsets followed by
the offsets plus the extents. -/
theorem rrc_sampler_matches_spec_algorithm (self : RRCLayer) (g : RNG) :
    (self.get_random_transformation g).1 =
      specCropRectangle (sampledArea self g) (sampledAspect self g)
        ((stateAfterFactors self g).stream (stateAfterFactors self g).pos)
        ((stateAfterFactors self g).stream ((stateAfterFactors self g).pos + 1)) := rfl

/-- C2: for every configuration and every rng state, the rectangle returned
by get_random_transformation satisfies y2 - y1 equal to the clipped
candidate height of that call and x2 - x1 equal to the clipped candidate
width, exactly, and both the height and the width lie in the unit
interval. -/
theorem rrc_rectangle_invariant (self : RRCLayer) (g : RNG) :
    ((self.get_random_transformation g).1.y2 - (self.get_random_transformation g).1.y1 =
        sampledHeight self g ∧
      (self.get_random_transformation g).1.x2 - (self.get_random_transformation g).1.x1 =
        sampledWidth self g) ∧
    (0 ≤ sampledHeight self g ∧ sampledHeight self g ≤ 1) ∧
    (0 ≤ sampledWidth self g ∧ sampledWidth self g ≤ 1) := by
  refine ⟨⟨?_, ?_⟩, ⟨clip01_nonneg _, clip01_le_one _⟩, ⟨clip01_nonneg _, clip01_le_one _⟩⟩
  · exact add_sub_cancel_left _ _
  · exact add_sub_cancel_left _ _

/-- C3: for every input image of any spatial dimensions and every
transformation rectangle, the training-path output of augment_image has
spatial dimensions exactly the configured target size. -/
theorem augment_image_target_size (self : RRCLayer) (image : Image)
    (transformation : Rect) :
    (self.augment_image image transformation).height = self.target_size.1 ∧
      (self.augment_image image transformation).width = self.target_size.2 :=
  ⟨rfl, rfl⟩

/-- C4: the sequence of rectangles across repeated calls is a function of
the rng state alone, so two runs from the same seeded state produce
identical sequences, and one call to get_random_transformation leaves the
stream unchanged and advances the position by exactly four, one advance per
scalar draw: area, aspect, height offset, width offset. -/
theorem rrc_deterministic_four_draws (self : RRCLayer) (g g2 : RNG) (n : ℕ)
    (hs : g.stream = g2.stream) (hp : g.pos = g2.pos) :
    rectSequence self g n = rectSequence self g2 n ∧
      (self.get_random_transformation g).2.stream = g.stream ∧
      (self.get_random_transformation g).2.pos = g.pos + 4 := by
  have hg : g = g2 := by
    cases g; cases g2; simp_all
  subst hg
  exact ⟨rfl, by rw [grt_state], by rw [grt_state]⟩

/-- C4 witness: the determinism and four-draw theorem evaluated at the
default-range layer, the zero stream and two calls. -/
theorem rrc_deterministic_four_draws_witness :
    rectSequence witnessLayer zeroRNG 2 = rectSequence witnessLayer zeroRNG 2 ∧
      (witnessLayer.get_random_transformation zeroRNG).2.stream = zeroRNG.stream ∧
      (witnessLayer.get_random_transformation zeroRNG).2.pos = zeroRNG.pos + 4 :=
  rrc_deterministic_four_draws witnessLayer zeroRNG zeroRNG 2 rfl rfl

/-- C5: a call in non-training mode returns exactly the smart resize of the
input to the target size cast back to the compute dtype of the layer, with
the rng state untouched and the rectangle sampler invoked zero times, for a
single image and for a batch uniformly; and its output spatial size is the
target size. -/
theorem rrc_inference_fast_path (self : RRCLayer) (inputs : ImageInput) (g : RNG) :
    self.call inputs false g =
      ((smart_resize inputs self.target_size.1 self.target_size.2).cast
        self.compute_dtype, g, 0) ∧
      ImageInput.spatialIs (self.call inputs false g).1 self.target_size.1
        self.target_size.2 := by
  refine ⟨rfl, ?_⟩
  cases inputs with
  | single img => exact ⟨rfl, rfl⟩
  | batch imgs =>
    intro img hmem
    simp only [RRCLayer.call, Bool.false_eq_true, if_false, RRCLayer._resize,
      smart_resize, ImageInput.cast, List.map_map] at hmem
    obtain ⟨i, hi, rfl⟩ := List.mem_map.mp hmem
    exact ⟨rfl, rfl⟩

/-- C6: evaluating the constructor at the three documented supported forms
of aspect_ratio_factor: a single float raises the ValueError naming
aspect_ratio_factor even though the docstring lists a single float as
supported, a FactorSampler instance raises UnboundLocalError because the
tuple-only locals are read by the parse call, and only a two-float tuple
constructs successfully. -/
theorem rrc_init_rejects_documented_forms :
    RandomResizedCrop_init (224, 224) (PyFactor.tuple [2 / 25, 1]) (PyFactor.float 2) =
        Except.error (InitError.valueError "aspect_ratio_factor") ∧
      RandomResizedCrop_init (224, 224) (PyFactor.tuple [2 / 25, 1])
          (PyFactor.sampler (FactorSampler.constant 1)) =
        Except.error (InitError.unboundLocal "min_aspect_ratio") ∧
      RandomResizedCrop_init (224, 224) (PyFactor.tuple [2 / 25, 1])
          (PyFactor.tuple [3 / 4, 4 / 3]) =
        Except.ok ⟨(224, 224), FactorSampler.uniform (2 / 25) 1,
          FactorSampler.uniform (3 / 4) (4 / 3), false⟩ := by
  refine ⟨rfl, rfl, ?_⟩
  have h1 : ((3 : ℚ) / 4) ≤ 4 / 3 := by norm_num
  have h2 : ((2 : ℚ) / 25) ≤ 1 := by norm_num
  simp only [RandomResizedCrop_init, parse_factor, PyFactor.truthy, PyFactor.eqPyZero,
    listMin, listMax, h1, h2, if_true, List.isEmpty_cons, Bool.not_false, if_pos]
  rfl

/-- C7: constructing the layer with both factors passed as the float 0.0
emits no warning: the falsy aspect_ratio_factor is replaced by the default
range before the degenerate-zero check, so the check compares the default
tuple with 0.0 and never fires. -/
theorem rrc_init_zero_zero_no_warning :
    Except.map RRCInit.warned
        (RandomResizedCrop_init (224, 224) (PyFactor.float 0) (PyFactor.float 0)) =
      Except.ok false := by
  have h1 : ((3 : ℚ) / 4) ≤ 4 / 3 := by norm_num
  simp only [RandomResizedCrop_init, parse_factor, PyFactor.truthy, PyFactor.eqPyZero,
    listMin, listMax, h1, if_pos, bne_self_eq_false, Bool.false_eq_true, if_false,
    List.isEmpty_cons, Bool.not_false]
  rfl

/-- C8: when both factor samplers are fixed so that every draw returns
exactly one, the computed height and width both equal one and the returned
rectangle is the full image. -/
theorem rrc_unit_factors_full_image (self : RRCLayer) (g : RNG)
    (ha : ∀ g1 : RNG, (self.area_factor.draw g1).1 = 1)
    (hr : ∀ g1 : RNG, (self.aspect_ratio_factor.draw g1).1 = 1) :
    sampledHeight self g = 1 ∧ sampledWidth self g = 1 ∧
      (self.get_random_transformation g).1 = ⟨0, 0, 1, 1⟩ := by
  have hh : sampledHeight self g = 1 := by
    simp [sampledHeight, sampledArea, sampledAspect, ha, hr, clip_by_value]
  have hw : sampledWidth self g = 1 := by
    simp [sampledWidth, sampledArea, sampledAspect, ha, hr, clip_by_value]
  refine ⟨hh, hw, ?_⟩
  simp only [RRCLayer.get_random_transformation]
  rw [ha, hr]
  simp [uniformDraw, RNG.draw, clip_by_value, Real.sqrt_one]

/-- C8 witness: the theorem evaluated at the layer whose two samplers are
the constant one and at the zero stream. -/
theorem rrc_unit_factors_full_image_witness :
    sampledHeight unitLayer zeroRNG = 1 ∧ sampledWidth unitLayer zeroRNG = 1 ∧
      (unitLayer.get_random_transformation zeroRNG).1 = ⟨0, 0, 1, 1⟩ :=
  rrc_unit_factors_full_image unitLayer zeroRNG (fun _g1 => rfl) (fun _g1 => rfl)

/-- C9: the SqueezeAndExciteBlock2D constructor succeeds exactly when the
ratio lies strictly between 0 and 1 and filters is a positive instance of
int; every other numeric input raises a configuration error. -/
theorem se_init_validates (filters : PyNum) (ratio : ℚ) :
    (∃ c, SqueezeAndExciteBlock2D_init filters ratio = Except.ok c) ↔
      ((0 < ratio ∧ ratio < 1) ∧ ∃ n : ℤ, filters = PyNum.int n ∧ 0 < n) := by
  constructor
  · rintro ⟨c, hc⟩
    unfold SqueezeAndExciteBlock2D_init at hc
    split_ifs at hc with h1 h2
    push_neg at h1 h2
    refine ⟨h1, ?_⟩
    cases filters with
    | int n =>
      have h := h2.1
      simp only [PyNum.toRat] at h
      exact ⟨n, rfl, by exact_mod_cast h⟩
    | float x =>
      have h := h2.2
      simp [PyNum.isInt] at h
  · rintro ⟨⟨h0, h1⟩, n, rfl, hn⟩
    unfold SqueezeAndExciteBlock2D_init
    rw [if_neg, if_neg]
    · exact ⟨_, rfl⟩
    · rintro (h | h)
      · have hq : (0 : ℚ) < (n : ℚ) := by exact_mod_cast hn
        simp only [PyNum.toRat] at h
        linarith
      · simp [PyNum.isInt] at h
    · rintro (h | h) <;> linarith

/-- C10: for every falsy aspect_ratio_factor argument, construction is
exactly construction with the default range: the substitution happens
before the type dispatch and before the degenerate-zero check, so a falsy
value never reaches the zero-warning comparison. -/
theorem rrc_falsy_aspect_uses_default (t : ℕ × ℕ) (a v : PyFactor)
    (hv : v.truthy = false) :
    RandomResizedCrop_init t a v =
      RandomResizedCrop_init t a (PyFactor.tuple [3 / 4, 4 / 3]) := by
  unfold RandomResizedCrop_init
  rw [hv]
  rfl

/-- C10 witness: the theorem evaluated at each falsy form: None, the float
0.0, the int 0, the empty tuple, and False. -/
theorem rrc_falsy_aspect_uses_default_witness :
    (RandomResizedCrop_init (224, 224) (PyFactor.tuple [2 / 25, 1]) PyFactor.none =
        RandomResizedCrop_init (224, 224) (PyFactor.tuple [2 / 25, 1])
          (PyFactor.tuple [3 / 4, 4 / 3])) ∧
      (RandomResizedCrop_init (224, 224) (PyFactor.tuple [2 / 25, 1]) (PyFactor.float 0) =
        RandomResizedCrop_init (224, 224) (PyFactor.tuple [2 / 25, 1])
          (PyFactor.tuple [3 / 4, 4 / 3])) ∧
      (RandomResizedCrop_init (224, 224) (PyFactor.tuple [2 / 25, 1]) (PyFactor.int 0) =
        RandomResizedCrop_init (224, 224) (PyFactor.tuple [2 / 25, 1])
          (PyFactor.tuple [3 / 4, 4 / 3])) ∧
      (RandomResizedCrop_init (224, 224) (PyFactor.tuple [2 / 25, 1]) (PyFactor.tuple []) =
        RandomResizedCrop_init (224, 224) (PyFactor.tuple [2 / 25, 1])
          (PyFactor.tuple [3 / 4, 4 / 3])) ∧
      (RandomResizedCrop_init (224, 224) (PyFactor.tuple [2 / 25, 1]) (PyFactor.bool false) =
        RandomResizedCrop_init (224, 224) (PyFactor.tuple [2 / 25, 1])
          (PyFactor.tuple [3 / 4, 4 / 3])) :=
  ⟨rrc_falsy_aspect_uses_default _ _ _ rfl,
    rrc_falsy_aspect_uses_default _ _ _ (by simp [PyFactor.truthy]),
    rrc_falsy_aspect_uses_default _ _ _ (by simp [PyFactor.truthy]),
    rrc_falsy_aspect_uses_default _ _ _ rfl,
    rrc_falsy_aspect_uses_default _ _ _ rfl⟩

end KerasCV
